import Mathlib

/-
Verification of the Clippr indexer service (src/indexer).

Shallow embedding of the registry (registry.rs), the data model (models.rs),
the stream subscriber (subscriber.rs) and the event processors (main.rs).
Durable-store rows are a list of subscribed-key records; write failures are
injected through a Boolean flag on the store.  Fresh UUIDs and timestamps are
supplied as explicit numeric arguments.  Effects performed by the subscriber
(connecting, subscribing, sleeping, enqueueing onto a channel, writing the
durable store, HTTP calls) are recorded as an explicit trace.
-/

namespace Clippr

/-! ## Base58 (the bs58 crate, Bitcoin alphabet) -/

def base58Alphabet : List Char :=
  "123456789ABCDEFGHJKLMNPQRSTUVWXYZabcdefghijkmnopqrstuvwxyz".toList

def base58Digit (c : Char) : Option Nat :=
  base58Alphabet.findIdx? (fun a => a == c)

/-- Minimal big-endian base-b digits of a natural number (empty for 0).
Fuel-driven structural recursion so that concrete instances reduce in the
kernel; fuel n is enough since a number has at most n digits. -/
def natToDigitsFuel (b : Nat) : Nat → Nat → List Nat
  | 0, _ => []
  | _ + 1, 0 => []
  | fuel + 1, n + 1 => natToDigitsFuel b fuel ((n + 1) / b) ++ [(n + 1) % b]

def natToBytesBE (n : Nat) : List Nat :=
  natToDigitsFuel 256 n n

def natToB58Digits (n : Nat) : List Nat :=
  natToDigitsFuel 58 n n

/-- Decoding of `bs58::decode(s).into_vec()`: every character must be in the
alphabet; leading 1-characters become leading zero bytes; the remaining
value is written in big-endian base 256. -/
def bs58_decode (s : String) : Option (List Nat) :=
  let cs := s.toList
  if cs.all (fun c => (base58Digit c).isSome) then
    let v := cs.foldl (fun acc c => acc * 58 + (base58Digit c).getD 0) 0
    let zeros := (cs.takeWhile (fun c => c == '1')).length
    some (List.replicate zeros 0 ++ natToBytesBE v)
  else none

/-- Encoding of `bs58::encode(bytes).into_string()`. -/
def bs58_encode (bytes : List Nat) : String :=
  let v := bytes.foldl (fun acc b => acc * 256 + b) 0
  let zeros := (bytes.takeWhile (fun b => b == 0)).length
  let digits := natToB58Digits v
  String.mk (List.replicate zeros '1' ++ digits.map (fun d => base58Alphabet.getD d '1'))

/-! ## Data model (models.rs) -/

inductive SubscriptionType
  | account
  | transaction
  | both
deriving DecidableEq, Repr

/-- Row of the subscribed_keys table.  UUIDs and timestamps are modelled as
naturals supplied by the caller. -/
structure SubscribedKey where
  id : Nat
  user_id : String
  public_key : String
  is_active : Bool
  subscription_type : SubscriptionType
  created_at : Nat
  updated_at : Nat
deriving DecidableEq, Repr

/-- SubscribedKey::new — a fresh row is created active, with a fresh id and
identical created_at and updated_at timestamps. -/
def SubscribedKey.new (freshId now : Nat) (user_id public_key : String)
    (subscription_type : SubscriptionType) : SubscribedKey :=
  { id := freshId, user_id := user_id, public_key := public_key,
    is_active := true, subscription_type := subscription_type,
    created_at := now, updated_at := now }

structure AddPublicKeyRequest where
  user_id : String
  public_key : String
  subscription_type : SubscriptionType
deriving DecidableEq, Repr

structure RemovePublicKeyRequest where
  user_id : String
  public_key : String
deriving DecidableEq, Repr

inductive BalanceChangeType
  | increase
  | decrease
  | swapIn
  | swapOut
  | transfer
  | unknown
deriving DecidableEq, Repr

/-- BalanceUpdate record (models.rs).  The generated UUID, block_time and
processed_at are omitted: they carry no information used by any operation. -/
structure BalanceUpdate where
  user_id : String
  public_key : String
  mint_address : String
  old_balance : Int
  new_balance : Int
  change_amount : Int
  change_type : BalanceChangeType
  transaction_signature : Option String
  slot : Int
deriving DecidableEq, Repr

/-- BalanceUpdate::new — change_amount is computed as new minus old. -/
def BalanceUpdate.new (user_id public_key mint_address : String)
    (old_balance new_balance : Int) (change_type : BalanceChangeType)
    (transaction_signature : Option String) (slot : Int) : BalanceUpdate :=
  { user_id := user_id, public_key := public_key, mint_address := mint_address,
    old_balance := old_balance, new_balance := new_balance,
    change_amount := new_balance - old_balance, change_type := change_type,
    transaction_signature := transaction_signature, slot := slot }

inductive TransactionEventType
  | send
  | receive
  | swap
  | unknown
deriving DecidableEq, Repr

inductive TransactionStatus
  | success
  | failed
  | pending
deriving DecidableEq, Repr

/-- TransactionEvent record (models.rs); optional metadata fields stay absent
when they cannot be derived. -/
structure TransactionEvent where
  public_key : String
  signature : String
  slot : Nat
  block_time : Option Int
  event_type : TransactionEventType
  amount : Option Int
  mint : Option String
  from_address : Option String
  to_address : Option String
  fee : Option Nat
  status : TransactionStatus
deriving DecidableEq, Repr

/-! ## Watch registry (registry.rs)

The durable store is a list of rows plus a failure-injection flag; the
in-memory HashSet cache is a duplicate-free list of strings. -/

structure Store where
  rows : List SubscribedKey
  fails : Bool
deriving DecidableEq, Repr

abbrev Cache := List String

structure RegistryState where
  store : Store
  cache : Cache
deriving DecidableEq, Repr

/-- HashSet::insert on the active-key cache. -/
def cacheInsert (c : Cache) (pk : String) : Cache :=
  if c.contains pk then c else c ++ [pk]

/-- HashSet::remove on the active-key cache. -/
def cacheRemove (c : Cache) (pk : String) : Cache :=
  c.filter (fun k => k != pk)

/-- Durable-store operations attempted by a registry call, in order. -/
inductive RegistryEffect
  | storeUpsert (user_id pk : String)
  | storeDeactivate (user_id pk : String)
  | storeSelectActive
deriving DecidableEq, Repr

/-- validate_public_key (registry.rs, lines 161-180): the textual key must be
44 characters long and base58-decode to exactly 32 bytes. -/
def validate_public_key (public_key : String) : Except String Unit :=
  if public_key.length != 44 then
    .error ("Invalid public key length: expected 44 characters, got " ++
      toString public_key.length)
  else
    match bs58_decode public_key with
    | some bytes =>
        if bytes.length != 32 then
          .error "Invalid public key: decoded length should be 32 bytes"
        else .ok ()
    | none => .error "Invalid public key: not valid base58"

def rowMatches (user_id pk : String) (r : SubscribedKey) : Bool :=
  r.user_id == user_id && r.public_key == pk

/-- INSERT ... ON CONFLICT (user_id, public_key) DO UPDATE SET is_active,
subscription_type, updated_at: a conflicting row keeps its id, user_id,
public_key and created_at; otherwise the new row is appended. -/
def upsertRow (rows : List SubscribedKey) (k : SubscribedKey) : List SubscribedKey :=
  if rows.any (rowMatches k.user_id k.public_key) then
    rows.map (fun r =>
      if rowMatches k.user_id k.public_key r then
        { r with is_active := k.is_active,
                 subscription_type := k.subscription_type,
                 updated_at := k.updated_at }
      else r)
  else rows ++ [k]

/-- add_public_key (registry.rs, lines 31-73): validate, then upsert the
durable row, then insert into the cache.  On validation failure nothing is
attempted; on store failure the state is left untouched and the error is
returned. -/
def add_public_key (st : RegistryState) (req : AddPublicKeyRequest)
    (freshId now : Nat) :
    Except String SubscribedKey × RegistryState × List RegistryEffect :=
  match validate_public_key req.public_key with
  | .error e => (.error e, st, [])
  | .ok _ =>
    let subscribed_key :=
      SubscribedKey.new freshId now req.user_id req.public_key req.subscription_type
    if st.store.fails then
      (.error "store failure", st, [.storeUpsert req.user_id req.public_key])
    else
      ( .ok subscribed_key,
        { store := { st.store with rows := upsertRow st.store.rows subscribed_key },
          cache := cacheInsert st.cache req.public_key },
        [.storeUpsert req.user_id req.public_key] )

/-- remove_public_key (registry.rs, lines 76-99): UPDATE subscribed_keys SET
is_active = false, updated_at = NOW() WHERE user_id AND public_key match —
note: no is_active filter, so inactive rows also count as affected.  The key
is removed from the cache only when the store reported affected rows. -/
def remove_public_key (st : RegistryState) (req : RemovePublicKeyRequest)
    (now : Nat) :
    Except String Bool × RegistryState × List RegistryEffect :=
  if st.store.fails then
    (.error "store failure", st, [.storeDeactivate req.user_id req.public_key])
  else
    let removed := st.store.rows.any (rowMatches req.user_id req.public_key)
    let rows2 := st.store.rows.map (fun r =>
      if rowMatches req.user_id req.public_key r then
        { r with is_active := false, updated_at := now }
      else r)
    if removed then
      ( .ok true,
        { store := { st.store with rows := rows2 },
          cache := cacheRemove st.cache req.public_key },
        [.storeDeactivate req.user_id req.public_key] )
    else
      ( .ok false,
        { store := { st.store with rows := rows2 }, cache := st.cache },
        [.storeDeactivate req.user_id req.public_key] )

/-- get_active_public_keys: a copied list of the cache. -/
def get_active_public_keys (st : RegistryState) : List String :=
  st.cache

/-- is_key_monitored: O(1) membership check against the cache. -/
def is_key_monitored (st : RegistryState) (pk : String) : Bool :=
  st.cache.contains pk

/-- get_key_subscription (registry.rs, lines 115-119): the body is a stub
that always returns Ok(None) (the comment in the source reads: for now,
return None to avoid sqlx offline issues). -/
def get_key_subscription (_public_key : String) : Option SubscribedKey :=
  none

/-- Public keys of rows with is_active = true, in row order. -/
def activeKeys (s : Store) : List String :=
  (s.rows.filter (fun r => r.is_active)).map (fun r => r.public_key)

/-- refresh_cache (registry.rs, lines 122-140): SELECT public_key FROM
subscribed_keys WHERE is_active = true, then replace the cache wholesale
under the write lock. -/
def refresh_cache (st : RegistryState) :
    Except String Unit × RegistryState × List RegistryEffect :=
  if st.store.fails then
    (.error "store failure", st, [.storeSelectActive])
  else
    (.ok (), { st with cache := activeKeys st.store }, [.storeSelectActive])

/-! ## Stream messages (yellowstone_grpc_proto, as consumed by subscriber.rs) -/

structure AccountInfo where
  pubkey : List Nat
  lamports : Nat
deriving DecidableEq, Repr

structure SubscribeUpdateAccount where
  account : Option AccountInfo
  slot : Nat
deriving DecidableEq, Repr

structure TransactionInfo where
  signature : List Nat
  meta : Option Unit
deriving DecidableEq, Repr

structure SubscribeUpdateTransaction where
  transaction : Option TransactionInfo
  slot : Nat
deriving DecidableEq, Repr

/-- The update_oneof variants dispatched by process_message; empty models a
message with update_oneof = None, other models the remaining kinds. -/
inductive SubscribeUpdate
  | account (u : SubscribeUpdateAccount)
  | transaction (u : SubscribeUpdateTransaction)
  | ping
  | other
  | empty
deriving DecidableEq, Repr

/-- Subscription request built by connect_and_subscribe: one account filter
per watched key, and a single transaction filter over all watched keys with
vote and failed transactions excluded. -/
structure SubscribeReq where
  accountFilters : List (List String)
  txAccountInclude : List String
  txVote : Option Bool
  txFailed : Option Bool
deriving DecidableEq, Repr

def build_subscribe_request (keys : List String) : SubscribeReq :=
  { accountFilters := keys.map (fun k => [k]),
    txAccountInclude := keys,
    txVote := some false,
    txFailed := some false }

/-- Observable effects of the subscriber, in program order. -/
inductive StreamEffect
  | connect
  | sendSubscribe (req : SubscribeReq)
  | sleep (secs : Nat)
  | enqueueBalance (u : BalanceUpdate)
  | enqueueTransaction (e : TransactionEvent)
  | storeWrite (table : String)
  | httpPost (url : String)
  | refreshCache
deriving DecidableEq, Repr

def solMint : String := "11111111111111111111111111111112"

/-- process_account_update (subscriber.rs, lines 194-241): base58-encode the
pubkey, drop the update unless the key is monitored, look up its
subscription (the registry stub yields none), and otherwise build a
BalanceUpdate with new_balance = lamports and change type Transfer, enqueue
it, and write it to the balance_updates table. -/
def process_account_update (st : RegistryState) (update : SubscribeUpdateAccount) :
    List StreamEffect :=
  match update.account with
  | none => []
  | some account =>
    let pubkey := bs58_encode account.pubkey
    if !(is_key_monitored st pubkey) then []
    else
      match get_key_subscription pubkey with
      | none => []
      | some subscription =>
        let balance_update := BalanceUpdate.new subscription.user_id pubkey
          solMint 0 (Int.ofNat account.lamports) .transfer none
          (Int.ofNat update.slot)
        [.enqueueBalance balance_update, .storeWrite "balance_updates"]

/-- process_transaction_update (subscriber.rs, lines 243-262): the signature
and slot are logged; when meta is present the code only logs again — no
TransactionEvent is built, enqueued or stored. -/
def process_transaction_update (_st : RegistryState)
    (update : SubscribeUpdateTransaction) : List StreamEffect :=
  match update.transaction with
  | none => []
  | some _tx => []

/-- process_message (subscriber.rs, lines 170-192): dispatch on the message
kind; pings, unknown kinds and empty messages produce nothing. -/
def process_message (st : RegistryState) (message : SubscribeUpdate) :
    List StreamEffect :=
  match message with
  | .account u => process_account_update st u
  | .transaction u => process_transaction_update st u
  | .ping => []
  | .other => []
  | .empty => []

/-- The streaming loop body: each message is processed, and with small
probability (modelled by an oracle Boolean per message) the registry cache
is refreshed from the store afterwards. -/
def process_stream (st : RegistryState) :
    List (SubscribeUpdate × Bool) → List StreamEffect
  | [] => []
  | (m, tick) :: rest =>
    let es := process_message st m
    if tick then
      es ++ [.refreshCache] ++ process_stream (refresh_cache st).2.1 rest
    else
      es ++ process_stream st rest

/-- connect_and_subscribe (subscriber.rs, lines 77-168): connect to the
endpoint first; then read the active keys, and if the watch-list is empty
sleep 30 seconds and return normally without subscribing; otherwise send
the subscription request built from the snapshot and process the stream.
connectOk injects handshake failures; the Boolean result is true when the
call returns Ok. -/
def connect_and_subscribe (st : RegistryState) (connectOk : Bool)
    (msgs : List (SubscribeUpdate × Bool)) : List StreamEffect × Bool :=
  if !connectOk then ([.connect], false)
  else
    let public_keys := get_active_public_keys st
    if public_keys.isEmpty then
      ([.connect, .sleep 30], true)
    else
      ( [.connect, .sendSubscribe (build_subscribe_request public_keys)] ++
          process_stream st msgs,
        true )

/-! ## Reconnect loop (subscriber.rs, start, lines 48-75) -/

inductive SessionOutcome
  | ok
  | err
deriving DecidableEq, Repr

def max_reconnect_attempts : Nat := 10

/-- Backoff after the given number of consecutive failures:
2 ^ min(attempts, 6) seconds. -/
def backoffSecs (attempts : Nat) : Nat :=
  2 ^ (min attempts 6)

/-- The reconnect loop of start, abstracted over the outcome of each
connect_and_subscribe session.  Given the current consecutive-failure count
and the outcomes of successive sessions, it returns the list of backoff
sleeps performed (in seconds, in order) and whether the loop terminated
fatally by exhausting the attempt budget. -/
def startLoop : Nat → List SessionOutcome → List Nat × Bool
  | _, [] => ([], false)
  | _, .ok :: rest => startLoop 0 rest
  | reconnect_attempts, .err :: rest =>
    let a := reconnect_attempts + 1
    if max_reconnect_attempts ≤ a then ([], true)
    else
      let out := startLoop a rest
      (backoffSecs a :: out.1, out.2)

/-- Specification-side characterization: the consecutive-failure counter
reaches the maximum attempt count somewhere along the outcome list. -/
def reachesMax : Nat → List SessionOutcome → Bool
  | _, [] => false
  | _, .ok :: rest => reachesMax 0 rest
  | reconnect_attempts, .err :: rest =>
    if max_reconnect_attempts ≤ reconnect_attempts + 1 then true
    else reachesMax (reconnect_attempts + 1) rest

/-! ## Event processors (main.rs, lines 115-186) -/

/-- process_balance_update (main.rs): one HTTP POST to the backend; no
durable-store write happens in the processor. -/
def process_balance_update (backend_url : String) (_u : BalanceUpdate) :
    List StreamEffect :=
  [.httpPost (backend_url ++ "/api/balance/update")]

/-- process_transaction_event (main.rs): one HTTP POST to the backend. -/
def process_transaction_event (backend_url : String) (_e : TransactionEvent) :
    List StreamEffect :=
  [.httpPost (backend_url ++ "/api/transactions/event")]

/-! ## Auxiliary predicates and concrete inputs -/

def isOk {ε α : Type} : Except ε α → Bool
  | .ok _ => true
  | .error _ => false

def isSendSubscribe : StreamEffect → Bool
  | .sendSubscribe _ => true
  | _ => false

def isDurableWrite : StreamEffect → Bool
  | .storeWrite _ => true
  | _ => false

def isHttpCall : StreamEffect → Bool
  | .httpPost _ => true
  | _ => false

def isEnqueue : StreamEffect → Bool
  | .enqueueBalance _ => true
  | .enqueueTransaction _ => true
  | _ => false

/-- Well-formedness of a key exactly as the specification phrases it:
textual length 44 and base58 decoding to exactly 32 bytes. -/
def wellFormedKey (pk : String) : Bool :=
  pk.length == 44 &&
    (match bs58_decode pk with
     | some bytes => bytes.length == 32
     | none => false)

/-- A concrete well-formed key: the digit 2 followed by 43 times the digit 1;
its base58 value is 58 ^ 43, which occupies exactly 32 bytes. -/
def cValidKey : String := String.mk ('2' :: List.replicate 43 '1')

/-- The 32 raw bytes the concrete key encodes. -/
def cKeyBytes : List Nat := (bs58_decode cValidKey).getD []

/-- A malformed key: 44 times the digit 1 decodes to 44 zero bytes. -/
def cBadKey : String := String.mk (List.replicate 44 '1')

/-- The in-place row update performed by the upsert when a row for the pair
already exists: reactivate, set the requested kind and bump updated_at. -/
def reactivateRow (t : SubscriptionType) (now : Nat) (u pk : String)
    (r : SubscribedKey) : SubscribedKey :=
  if rowMatches u pk r then
    { r with is_active := true, subscription_type := t, updated_at := now }
  else r

/-- A soft-deleted row for user u1 and the key k1. -/
def cInactiveRow : SubscribedKey :=
  { id := 7, user_id := "u1", public_key := "k1", is_active := false,
    subscription_type := .account, created_at := 0, updated_at := 0 }

/-- A soft-deleted row for user u1 and the concrete well-formed key. -/
def cSoftDeletedRow : SubscribedKey :=
  { id := 9, user_id := "u1", public_key := cValidKey, is_active := false,
    subscription_type := .transaction, created_at := 0, updated_at := 0 }

/-- An active row for user u9 and the key k9. -/
def cActiveRow : SubscribedKey :=
  { id := 4, user_id := "u9", public_key := "k9", is_active := true,
    subscription_type := .both, created_at := 0, updated_at := 0 }

end Clippr

deriving instance DecidableEq for Except

namespace Clippr

/-! ## Helper lemmas -/

lemma validate_ok_of_wellFormed (pk : String) (h : wellFormedKey pk = true) :
    validate_public_key pk = .ok () := by
  unfold wellFormedKey at h
  rw [Bool.and_eq_true] at h
  obtain ⟨h1, h2⟩ := h
  unfold validate_public_key
  cases hd : bs58_decode pk with
  | none => rw [hd] at h2; simp at h2
  | some bytes =>
    rw [hd] at h2
    have h2b : bytes.length = 32 := by simpa using h2
    have h1b : pk.length = 44 := by simpa using h1
    simp [bne, h1b, hd, h2b]

lemma validate_error_of_not_wellFormed (pk : String) (h : wellFormedKey pk = false) :
    isOk (validate_public_key pk) = false := by
  unfold wellFormedKey at h
  unfold validate_public_key
  cases h1 : pk.length == 44 with
  | false => simp [bne, h1, isOk]
  | true =>
    rw [h1] at h
    simp only [Bool.true_and] at h
    cases hd : bs58_decode pk with
    | none => simp [bne, h1, hd, isOk]
    | some bytes =>
      rw [hd] at h
      have hne : bytes.length ≠ 32 := by simpa using h
      simp [bne, h1, hd, hne, isOk]

lemma contains_iff_mem (c : List String) (pk : String) :
    c.contains pk = true ↔ pk ∈ c := by
  simp [List.contains_iff_exists_mem_beq]

lemma contains_cacheInsert (c : Cache) (pk : String) :
    (cacheInsert c pk).contains pk = true := by
  unfold cacheInsert
  cases h : c.contains pk with
  | true => simpa using h
  | false =>
    simp only [Bool.false_eq_true, if_false]
    rw [contains_iff_mem]
    simp

lemma mem_cacheInsert (c : Cache) (pk : String) : pk ∈ cacheInsert c pk := by
  rw [← contains_iff_mem]
  exact contains_cacheInsert c pk

lemma contains_cacheRemove (c : Cache) (pk : String) :
    (cacheRemove c pk).contains pk = false := by
  cases hcon : (cacheRemove c pk).contains pk with
  | false => rfl
  | true =>
    rw [contains_iff_mem] at hcon
    unfold cacheRemove at hcon
    rw [List.mem_filter] at hcon
    simp at hcon

lemma process_account_update_nil (st : RegistryState) (u : SubscribeUpdateAccount) :
    process_account_update st u = [] := by
  unfold process_account_update
  cases h : u.account with
  | none => rfl
  | some a =>
    simp only [get_key_subscription]
    split <;> rfl

lemma process_transaction_update_nil (st : RegistryState)
    (u : SubscribeUpdateTransaction) :
    process_transaction_update st u = [] := by
  unfold process_transaction_update
  cases h : u.transaction <;> rfl

lemma process_message_nil (st : RegistryState) (m : SubscribeUpdate) :
    process_message st m = [] := by
  cases m with
  | account u => exact process_account_update_nil st u
  | transaction u => exact process_transaction_update_nil st u
  | ping => rfl
  | other => rfl
  | empty => rfl

lemma process_stream_no_write_no_http (st : RegistryState)
    (msgs : List (SubscribeUpdate × Bool)) :
    (process_stream st msgs).all (fun e => !(isDurableWrite e) && !(isHttpCall e)) = true := by
  induction msgs generalizing st with
  | nil => rfl
  | cons p rest ih =>
    obtain ⟨m, tick⟩ := p
    cases tick with
    | false => simpa [process_stream, process_message_nil] using ih st
    | true =>
      simpa [process_stream, process_message_nil, isDurableWrite, isHttpCall]
        using ih (refresh_cache st).2.1

/-! ## Claim theorems -/

/-- Claim C1.  A valid 44-character key added with kind Account is watched, yet
the subsequent account notification carrying lamports = 5_000_000_000 produces
NO BalanceEvent: process_account_update reaches the get_key_subscription call,
which the source stubs to Ok(None), and returns early with an empty effect
trace, against the claimed BalanceEvent with new_balance = 5_000_000_000 and
change_kind = Transfer. -/
theorem watched_key_deposit_produces_no_event :
    (add_public_key { store := { rows := [], fails := false }, cache := [] }
        { user_id := "u1", public_key := cValidKey, subscription_type := .account }
        1 0).1 = .ok (SubscribedKey.new 1 0 "u1" cValidKey .account) ∧
    get_active_public_keys
      (add_public_key ⟨⟨[], false⟩, []⟩ ⟨"u1", cValidKey, .account⟩ 1 0).2.1 =
      [cValidKey] ∧
    is_key_monitored
      (add_public_key ⟨⟨[], false⟩, []⟩ ⟨"u1", cValidKey, .account⟩ 1 0).2.1
      cValidKey = true ∧
    process_account_update
      (add_public_key ⟨⟨[], false⟩, []⟩ ⟨"u1", cValidKey, .account⟩ 1 0).2.1
      { account := some { pubkey := cKeyBytes, lamports := 5000000000 }, slot := 0 } =
      [] := by
  refine ⟨by decide, by decide, by decide, ?_⟩
  exact process_account_update_nil _ _

/-- Claim C2, counterexample.  With an empty watch-list the subscriber still
establishes the connection to the streaming endpoint: the effect trace of
connect_and_subscribe begins with the connect effect, refuting that no
connection attempt is made. -/
theorem empty_watchlist_still_connects :
    StreamEffect.connect ∈
      (connect_and_subscribe { store := { rows := [], fails := false }, cache := [] }
        true []).1 ∧
    (connect_and_subscribe ⟨⟨[], false⟩, []⟩ true []).1 =
      [.connect, .sleep 30] := by
  decide

/-- Claim C2, amended.  Whenever the watch-list is empty at connection time the
subscriber connects to the endpoint but never sends a subscription request; it
sleeps the fixed 30-second idle interval and returns normally, so the outer
loop re-checks the registry. -/
theorem empty_watchlist_idles_without_subscribing (st : RegistryState)
    (msgs : List (SubscribeUpdate × Bool)) (h : st.cache = []) :
    (connect_and_subscribe st true msgs).1 = [.connect, .sleep 30] ∧
    ((connect_and_subscribe st true msgs).1.all fun e => !(isSendSubscribe e)) = true ∧
    (connect_and_subscribe st true msgs).2 = true := by
  unfold connect_and_subscribe get_active_public_keys
  rw [h]
  simp [isSendSubscribe]

/-- Witness for the amended Claim C2 at the empty registry. -/
theorem empty_watchlist_idles_witness :
    ({ store := { rows := [], fails := false }, cache := [] } : RegistryState).cache =
      [] ∧
    (connect_and_subscribe { store := { rows := [], fails := false }, cache := [] }
      true []).1 = [.connect, .sleep 30] :=
  ⟨rfl, (empty_watchlist_idles_without_subscribing _ [] rfl).1⟩

/-- Claim C3.  While processing inbound stream messages the subscriber
performs only channel enqueues: the per-message effect trace contains nothing
but enqueue effects, and the whole streaming loop performs no durable-store
write and no downstream HTTP call. -/
theorem stream_read_path_only_enqueues (st : RegistryState) (m : SubscribeUpdate)
    (msgs : List (SubscribeUpdate × Bool)) :
    ((process_message st m).all isEnqueue) = true ∧
    ((process_message st m).all fun e => !(isDurableWrite e) && !(isHttpCall e)) = true ∧
    ((process_stream st msgs).all fun e => !(isDurableWrite e) && !(isHttpCall e)) = true := by
  refine ⟨?_, ?_, process_stream_no_write_no_http st msgs⟩ <;>
    rw [process_message_nil] <;> rfl

/-- Claim C4.  A transaction notification never yields a TransactionEvent:
process_transaction_update only logs the signature and the metadata and
returns an empty effect trace, both in general and at the concrete failing
input (a notification for a watched account, metadata present). -/
theorem transaction_update_produces_no_event (st : RegistryState)
    (u : SubscribeUpdateTransaction) :
    process_transaction_update st u = [] ∧
    process_transaction_update
      { store := { rows := [], fails := false }, cache := [cValidKey] }
      { transaction := some { signature := [1, 2, 3], meta := some () }, slot := 5 } =
      [] :=
  ⟨process_transaction_update_nil st u, rfl⟩

/-- Claim C5, counterexample.  The soft-delete UPDATE filters only on
(user_id, public_key), not on is_active, so a store holding only an inactive
row for the pair still reports an affected row and Remove returns true even
though no active row matched. -/
theorem remove_true_without_active_row :
    (remove_public_key { store := { rows := [cInactiveRow], fails := false }, cache := [] }
        { user_id := "u1", public_key := "k1" } 5).1 = .ok true ∧
    ([cInactiveRow].all fun r => !(rowMatches "u1" "k1" r && r.is_active)) = true := by
  decide

/-- Claim C5, amended.  Remove returns false (not an error) exactly when no
row at all — active or soft-deleted — matched the pair; when it returns false
the cache is unchanged, and when it returns true the key is removed from the
cache only after the store confirmed the write (on store failure the error is
returned and the state is untouched). -/
theorem remove_false_iff_no_row_matched (st : RegistryState)
    (req : RemovePublicKeyRequest) (now : Nat) :
    (st.store.fails = true →
      (remove_public_key st req now).1 = .error "store failure" ∧
      (remove_public_key st req now).2.1 = st) ∧
    (st.store.fails = false →
      (((remove_public_key st req now).1 = .ok false) ↔
        st.store.rows.any (rowMatches req.user_id req.public_key) = false) ∧
      ((remove_public_key st req now).1 = .ok false →
        (remove_public_key st req now).2.1.cache = st.cache) ∧
      ((remove_public_key st req now).1 = .ok true →
        (remove_public_key st req now).2.1.cache = cacheRemove st.cache req.public_key)) := by
  constructor
  · intro hf
    unfold remove_public_key
    rw [hf]
    simp
  · intro hf
    unfold remove_public_key
    rw [hf]
    cases hm : st.store.rows.any (rowMatches req.user_id req.public_key) with
    | true => simp [hm]
    | false => simp [hm]

/-- Witness for the amended Claim C5: a pair with no row at all yields false. -/
theorem remove_false_iff_witness :
    ((remove_public_key { store := { rows := [cInactiveRow], fails := false }, cache := [] }
        { user_id := "u2", public_key := "k2" } 5).1 = .ok false) ↔
      ([cInactiveRow].any (rowMatches "u2" "k2") = false) :=
  ((remove_false_iff_no_row_matched ⟨⟨[cInactiveRow], false⟩, []⟩ ⟨"u2", "k2"⟩ 5).2 rfl).1

/-- Claim C6.  For every well-formed key (length 44, base58 decoding to
exactly 32 bytes) Add succeeds (given a healthy store) and an immediate
IsWatched returns true; for every malformed input Add returns an error and
the registry state — store and cache — is unchanged. -/
theorem add_then_iswatched_and_reject_malformed (st : RegistryState)
    (req : AddPublicKeyRequest) (freshId now : Nat) :
    (wellFormedKey req.public_key = true → st.store.fails = false →
      isOk (add_public_key st req freshId now).1 = true ∧
      is_key_monitored (add_public_key st req freshId now).2.1 req.public_key = true) ∧
    (wellFormedKey req.public_key = false →
      isOk (add_public_key st req freshId now).1 = false ∧
      (add_public_key st req freshId now).2.1 = st) := by
  constructor
  · intro hw hf
    unfold add_public_key
    rw [validate_ok_of_wellFormed _ hw, hf]
    simp [isOk, is_key_monitored, contains_cacheInsert, mem_cacheInsert]
  · intro hw
    have hv := validate_error_of_not_wellFormed _ hw
    cases he : validate_public_key req.public_key with
    | ok u => rw [he] at hv; simp [isOk] at hv
    | error e =>
      unfold add_public_key
      rw [he]
      simp [isOk]

/-- Witness for Claim C6: the concrete valid key is watched right after Add
on an empty registry; the all-ones key is rejected with the state unchanged. -/
theorem add_then_iswatched_witness :
    wellFormedKey cValidKey = true ∧
    wellFormedKey cBadKey = false ∧
    is_key_monitored
      (add_public_key { store := { rows := [], fails := false }, cache := [] }
        { user_id := "u1", public_key := cValidKey, subscription_type := .account }
        1 0).2.1 cValidKey = true ∧
    (add_public_key { store := { rows := [], fails := false }, cache := [] }
      { user_id := "u2", public_key := cBadKey, subscription_type := .account }
      2 0).2.1 = { store := { rows := [], fails := false }, cache := [] } :=
  ⟨by decide, by decide,
   ((add_then_iswatched_and_reject_malformed ⟨⟨[], false⟩, []⟩
      ⟨"u1", cValidKey, .account⟩ 1 0).1 (by decide) rfl).2,
   ((add_then_iswatched_and_reject_malformed ⟨⟨[], false⟩, []⟩
      ⟨"u2", cBadKey, .account⟩ 2 0).2 (by decide)).2⟩

/-- On a healthy store and a well-formed key that already has a row for the
pair, the state after Add has the row list updated in place and the key
inserted into the cache. -/
lemma add_ok_state_of_match (st : RegistryState) (req : AddPublicKeyRequest)
    (freshId now : Nat) (hw : wellFormedKey req.public_key = true)
    (hf : st.store.fails = false)
    (hrow : st.store.rows.any (rowMatches req.user_id req.public_key) = true) :
    (add_public_key st req freshId now).2.1 =
      { store :=
          { rows :=
              st.store.rows.map
                (reactivateRow req.subscription_type now req.user_id req.public_key),
            fails := false },
        cache := cacheInsert st.cache req.public_key } := by
  unfold add_public_key
  rw [validate_ok_of_wellFormed _ hw, hf]
  simp [upsertRow, SubscribedKey.new, hrow, reactivateRow]
  exact hf

/-- Claim C7.  A subsequent Add for a pair that already has a (possibly
soft-deleted) row updates that row in place: the row count is unchanged (no
duplicate) and every matching row keeps its id while becoming active with the
requested kind; and Add then Remove then IsWatched returns false. -/
theorem add_reactivates_same_row (st : RegistryState) (req : AddPublicKeyRequest)
    (freshId now now2 : Nat)
    (hw : wellFormedKey req.public_key = true)
    (hf : st.store.fails = false)
    (hrow : st.store.rows.any (rowMatches req.user_id req.public_key) = true) :
    (add_public_key st req freshId now).2.1.store.rows.length =
      st.store.rows.length ∧
    (∀ r ∈ st.store.rows, rowMatches req.user_id req.public_key r = true →
      ∃ r2 ∈ (add_public_key st req freshId now).2.1.store.rows,
        r2.id = r.id ∧ r2.is_active = true ∧
        r2.subscription_type = req.subscription_type ∧
        r2.user_id = r.user_id ∧ r2.public_key = r.public_key) ∧
    is_key_monitored
      (remove_public_key (add_public_key st req freshId now).2.1
        { user_id := req.user_id, public_key := req.public_key } now2).2.1
      req.public_key = false := by
  have hst1 := add_ok_state_of_match st req freshId now hw hf hrow
  have hrem : ((add_public_key st req freshId now).2.1.store.rows.any
      (rowMatches req.user_id req.public_key)) = true := by
    rw [hst1, List.any_map]
    rw [List.any_eq_true] at hrow ⊢
    obtain ⟨r, hr, hmr⟩ := hrow
    refine ⟨r, hr, ?_⟩
    simp only [Function.comp]
    have hmr2 : r.user_id = req.user_id ∧ r.public_key = req.public_key := by
      simpa [rowMatches] using hmr
    simp [reactivateRow, rowMatches, hmr2.1, hmr2.2]
  refine ⟨?_, ?_, ?_⟩
  · rw [hst1]
    exact List.length_map _ _
  · intro r hr hmr
    rw [hst1]
    exact ⟨_, List.mem_map_of_mem _ hr, by simp [reactivateRow, hmr]⟩
  · unfold remove_public_key
    rw [hst1] at hrem ⊢
    simp only [hrem]
    unfold is_key_monitored
    simp only [Bool.false_eq_true, if_false, if_true]
    exact contains_cacheRemove _ _

/-- Witness for Claim C7: reactivating the soft-deleted concrete row keeps
the row count at one. -/
theorem add_reactivates_witness :
    (add_public_key { store := { rows := [cSoftDeletedRow], fails := false }, cache := [] }
      { user_id := "u1", public_key := cValidKey, subscription_type := .account }
      3 8).2.1.store.rows.length = 1 :=
  (add_reactivates_same_row ⟨⟨[cSoftDeletedRow], false⟩, []⟩
    ⟨"u1", cValidKey, .account⟩ 3 8 9 (by decide) rfl (by decide)).1

/-- Claim C8.  When the durable-store write inside Add fails, Add returns the
error and leaves the whole registry state — in particular the cache — exactly
as it was; a malformed key is rejected with an empty store-operation trace,
before any storage operation is attempted. -/
theorem add_error_paths (st : RegistryState) (req : AddPublicKeyRequest)
    (freshId now : Nat) :
    (st.store.fails = true → wellFormedKey req.public_key = true →
      (add_public_key st req freshId now).1 = .error "store failure" ∧
      (add_public_key st req freshId now).2.1 = st) ∧
    (wellFormedKey req.public_key = false →
      (add_public_key st req freshId now).2.2 = [] ∧
      isOk (add_public_key st req freshId now).1 = false ∧
      (add_public_key st req freshId now).2.1 = st) := by
  constructor
  · intro hf hw
    unfold add_public_key
    rw [validate_ok_of_wellFormed _ hw, hf]
    simp
  · intro hw
    have hv := validate_error_of_not_wellFormed _ hw
    cases he : validate_public_key req.public_key with
    | ok u => rw [he] at hv; simp [isOk] at hv
    | error e =>
      unfold add_public_key
      rw [he]
      simp [isOk]

/-- Witness for Claim C8: a failing store leaves the state untouched; the
malformed all-ones key produces no store operation. -/
theorem add_error_paths_witness :
    (add_public_key { store := { rows := [], fails := true }, cache := [] }
      { user_id := "u1", public_key := cValidKey, subscription_type := .account }
      1 0).2.1 = { store := { rows := [], fails := true }, cache := [] } ∧
    (add_public_key { store := { rows := [], fails := false }, cache := [] }
      { user_id := "u3", public_key := cBadKey, subscription_type := .account }
      1 0).2.2 = [] :=
  ⟨((add_error_paths ⟨⟨[], true⟩, []⟩ ⟨"u1", cValidKey, .account⟩ 1 0).1
      rfl (by decide)).2,
   ((add_error_paths ⟨⟨[], false⟩, []⟩ ⟨"u3", cBadKey, .account⟩ 1 0).2
      (by decide)).1⟩

/-- After N consecutive failures starting from failure count a, the loop
sleeps backoffSecs (a + 1), ..., backoffSecs (a + N), provided the budget is
not exhausted. -/
lemma startLoop_replicate_err (N a : Nat) (h : a + N < max_reconnect_attempts) :
    (startLoop a (List.replicate N .err)).1 =
      (List.range N).map (fun i => backoffSecs (a + i + 1)) := by
  induction N generalizing a with
  | zero => rfl
  | succ n ih =>
    have h1 : ¬ (max_reconnect_attempts ≤ a + 1) := by
      unfold max_reconnect_attempts at h ⊢
      omega
    rw [List.replicate_succ]
    show (startLoop a (.err :: List.replicate n .err)).1 = _
    rw [List.range_succ_eq_map]
    simp only [startLoop, h1, if_false, List.map_cons, List.map_map]
    congr 1
    rw [ih (a + 1) (by omega)]
    apply List.map_congr_left
    intro i _
    simp only [Function.comp]
    congr 1
    omega

/-- Claim C9.  The Nth backoff sleep after N consecutive failures is
2 ^ min(N, 6) seconds; sleeps are monotonically non-decreasing in the failure
count and capped at 64 seconds; a successful session resets the counter to
zero; and the loop terminates fatally exactly when the consecutive-failure
counter reaches the maximum attempt count. -/
theorem backoff_monotone_capped_reset_fatal :
    (∀ N, N < max_reconnect_attempts →
      (startLoop 0 (List.replicate N .err)).1 =
        (List.range N).map (fun i => 2 ^ min (i + 1) 6)) ∧
    (∀ i j, i ≤ j → backoffSecs i ≤ backoffSecs j) ∧
    (∀ i, backoffSecs i ≤ 64) ∧
    (∀ a rest, startLoop a (.ok :: rest) = startLoop 0 rest) ∧
    (∀ a outs, (startLoop a outs).2 = reachesMax a outs) := by
  refine ⟨?_, ?_, ?_, ?_, ?_⟩
  · intro N hN
    rw [startLoop_replicate_err N 0 (by omega)]
    apply List.map_congr_left
    intro i _
    simp [backoffSecs]
  · intro i j hij
    exact Nat.pow_le_pow_right (by norm_num) (min_le_min hij (le_refl 6))
  · intro i
    calc backoffSecs i ≤ 2 ^ 6 :=
          Nat.pow_le_pow_right (by norm_num) (min_le_right i 6)
      _ = 64 := rfl
  · intro a rest
    rfl
  · intro a outs
    induction outs generalizing a with
    | nil => rfl
    | cons o rest ih =>
      cases o with
      | ok => exact ih 0
      | err =>
        by_cases hc : max_reconnect_attempts ≤ a + 1
        · simp [startLoop, reachesMax, hc]
        · simp [startLoop, reachesMax, hc, ih (a + 1)]

/-- Witness for Claim C9: three straight failures sleep 2, 4 and 8 seconds; a
success resets the counter; twelve straight failures exhaust the budget. -/
theorem backoff_witness :
    (startLoop 0 (List.replicate 3 .err)).1 = [2, 4, 8] ∧
    backoffSecs 2 ≤ backoffSecs 5 ∧
    startLoop 4 [.ok, .err] = startLoop 0 [.err] ∧
    (startLoop 0 (List.replicate 12 .err)).2 = reachesMax 0 (List.replicate 12 .err) := by
  refine ⟨?_, backoff_monotone_capped_reset_fatal.2.1 2 5 (by decide),
    backoff_monotone_capped_reset_fatal.2.2.2.1 4 [.err],
    backoff_monotone_capped_reset_fatal.2.2.2.2 0 _⟩
  have h := backoff_monotone_capped_reset_fatal.1 3 (by decide)
  rw [h]
  decide

/-- Claim C10.  Refresh replaces the cache so that membership is exactly the
set of public keys of rows with is_active = true in the durable store at call
time, and refreshing twice with no intervening store writes yields the same
cache. -/
theorem refresh_matches_active_rows (st : RegistryState)
    (h : st.store.fails = false) :
    (∀ pk, pk ∈ (refresh_cache st).2.1.cache ↔
      ∃ r ∈ st.store.rows, r.is_active = true ∧ r.public_key = pk) ∧
    (refresh_cache (refresh_cache st).2.1).2.1.cache = (refresh_cache st).2.1.cache := by
  have hrc : (refresh_cache st).2.1 = { st with cache := activeKeys st.store } := by
    unfold refresh_cache
    simp [h]
  constructor
  · intro pk
    rw [hrc]
    simp [activeKeys, List.mem_map, List.mem_filter, and_assoc]
  · rw [hrc]
    unfold refresh_cache
    simp [h]

/-- Witness for Claim C10 on a store holding one active and one inactive
row. -/
theorem refresh_matches_witness :
    "k9" ∈ (refresh_cache
      { store := { rows := [cActiveRow, cInactiveRow], fails := false },
        cache := ["stale"] }).2.1.cache ↔
      ∃ r ∈ [cActiveRow, cInactiveRow], r.is_active = true ∧ r.public_key = "k9" :=
  (refresh_matches_active_rows
    ⟨⟨[cActiveRow, cInactiveRow], false⟩, ["stale"]⟩ rfl).1 "k9"

end Clippr
